import Mathlib

/-!
Shallow embedding of the marne-bot monitor (src/src/main.rs): server-list
polling, server matching, map-key extraction, status publishing, the
liveness tracker with its HTTP probe, and the numeric pipeline of the
image renderer.  Machine floats (`f32`) are modelled as exact rationals rounded
to a 24-bit significand with round-to-nearest, ties-to-even, which is the
IEEE-754 single-precision behaviour for the normal range used here.
-/

/-- Configuration record (`Static` in main.rs). -/
structure Static where
  token : String
  server_name : Option String
  server_id : Option Int
  game : Option String
deriving DecidableEq, Repr

/-- One server entry of the polled list (`MarneServerInfo`). -/
structure MarneServerInfo where
  id : Int
  name : String
  map_name : String
  game_mode : String
  max_players : Int
  tick_rate : Int
  password : Int
  need_same_mods : Int
  allow_more_mods : Int
  current_players : Int
  region : String
  country : String
deriving DecidableEq, Repr

/-- The polled server list (`MarneServerList`). -/
structure MarneServerList where
  servers : List MarneServerInfo
deriving DecidableEq, Repr

/-- Initial value of the shared liveness atomic: `AtomicI64::new(0)`. -/
def initialLiveness : Int := 0

/-- Probe response body: `format!("{}", now_minutes - last_update_i64)`. -/
def probeBody (last_update now_minutes : Int) : String :=
  toString (now_minutes - last_update)

/-- Probe HTTP status: 503 when `(now_minutes - last_update) > 5`, else 200. -/
def probeStatusCode (last_update now_minutes : Int) : Nat :=
  if now_minutes - last_update > 5 then 503 else 200

/-- Full probe response (body, status) as served on every path. -/
def probeResponse (last_update now_minutes : Int) : String × Nat :=
  (probeBody last_update now_minutes, probeStatusCode last_update now_minutes)

/-- First byte of the UTF-8 encoding of a character (used to model
`json_string.as_bytes()[0]`). -/
def firstUtf8Byte (c : Char) : Nat :=
  if c.toNat < 0x80 then c.toNat
  else if c.toNat < 0x800 then 0xC0 + c.toNat / 0x40
  else if c.toNat < 0x10000 then 0xE0 + c.toNat / 0x1000
  else 0xF0 + c.toNat / 0x40000

/-- Outcome of the `get` fetch-and-parse function. -/
inductive GetOutcome where
  | networkError
  | panicked
  | parseError
  | okList (l : MarneServerList)
deriving DecidableEq, Repr

/-- Model of `get` (main.rs 156-183).  `transport` is `none` on transport
failure, otherwise the response text after `unwrap_or_default()`.  The code
indexes `json_bytes[0]` unconditionally, which panics on an empty body;
when the first byte is 239 it removes the first character before parsing.
`parse` stands for `serde_json::from_str::<MarneServerList>`. -/
def getModel (transport : Option String)
    (parse : String → Option MarneServerList) : GetOutcome :=
  match transport with
  | none => .networkError
  | some body =>
    match body.data with
    | [] => .panicked
    | c :: rest =>
      let json_string := if firstUtf8Byte c = 239 then String.mk rest else body
      match parse json_string with
      | some l => .okList l
      | none => .parseError

/-- The maximal trailing run of non-`'/'` characters: the text matched by
the regex `[^\/]+$` (empty list when the regex has no match). -/
def lastRun (l : List Char) : List Char :=
  (l.reverse.takeWhile (fun c => c != '/')).reverse

/-- Result of `Regex::new("[^\/]+$").find(...)`: `some` of the matched
segment, `none` when the string is empty or ends with `'/'`. -/
def lastSegment (l : List Char) : Option (List Char) :=
  match lastRun l with
  | [] => none
  | r => some r

/-- The lookup key computed at main.rs 345-349: the regex match when there
is one, otherwise the whole raw `map_name`. -/
def extract_map_key (s : String) : String :=
  match lastSegment s.data with
  | some r => String.mk r
  | none => s

/-- Modelled from the words of the spec (for comparison only): "everything after
the last `/` when one is present, the whole string when no `/` is
present". -/
def specMapKey (s : String) : String :=
  if s.data.contains '/' then String.mk (lastRun s.data) else s

/-- The map-key → display-name table (main.rs 188-253). -/
def maps : List (String × String) :=
  [("MP_Amiens", "Amiens"),
   ("MP_Chateau", "Ballroom Blitz"),
   ("MP_Desert", "Sinai Desert"),
   ("MP_FaoFortress", "Fao Fortress"),
   ("MP_Forest", "Argonne Forest"),
   ("MP_ItalianCoast", "Empire\x27s Edge"),
   ("MP_MountainFort", "Monte Grappa"),
   ("MP_Scar", "St Quentin Scar"),
   ("MP_Suez", "Suez"),
   ("MP_Giant", "Giant\x27s Shadow"),
   ("MP_Fields", "Soissons"),
   ("MP_Graveyard", "Rupture"),
   ("MP_Underworld", "Fort De Vaux"),
   ("MP_Verdun", "Verdun Heights"),
   ("MP_ShovelTown", "Prise de Tahure"),
   ("MP_Trench", "Nivelle Nights"),
   ("MP_Bridge", "Brusilov Keep"),
   ("MP_Islands", "Albion"),
   ("MP_Ravines", "Łupków Pass"),
   ("MP_Tsaritsyn", "Tsaritsyn"),
   ("MP_Valley", "Galicia"),
   ("MP_Volga", "Volga River"),
   ("MP_Beachhead", "Cape Helles"),
   ("MP_Harbor", "Zeebrugge"),
   ("MP_Naval", "Heligoland Bight"),
   ("MP_Ridge", "Achi Baba"),
   ("MP_Alps", "Razor\x27s Edge"),
   ("MP_Blitz", "London Calling"),
   ("MP_Hell", "Passchendaele"),
   ("MP_London", "London Calling: Scourge"),
   ("MP_Offensive", "River Somme"),
   ("MP_River", "Caporetto"),
   ("MP_ArcticFjell", "Fjell 652"),
   ("MP_ArcticFjord", "Narvik"),
   ("MP_Arras", "Arras"),
   ("MP_Devastation", "Devastation"),
   ("MP_Escaut", "twisted steel"),
   ("MP_Foxhunt", "Aerodrome"),
   ("MP_Halfaya", "Hamada"),
   ("MP_Rotterdam", "Rotterdam"),
   ("MP_Hannut", "Panzerstorm"),
   ("MP_Crete", "Mercury"),
   ("MP_Kalamas", "Marita"),
   ("MP_Provence", "Provence"),
   ("MP_SandAndSea", "Al sudan"),
   ("MP_Bunker", "Operation Underground"),
   ("MP_IwoJima", "Iwo jima"),
   ("MP_TropicIslands", "Pacific storm"),
   ("MP_WakeIsland", "Wake island"),
   ("MP_Jungle", "Solomon islands"),
   ("MP_Libya", "Al marj encampment"),
   ("MP_Norway", "lofoten islands"),
   ("DK_Norway", "Halvoy"),
   ("MP_Escaut_US", "Twisted Steel US"),
   ("MP_Hannut_US", "Panzerstorm US"),
   ("MP_GOps_Chapter2_Arras", "Arras (Chapter 2)"),
   ("MP_WE_Fortress_Devastation", "Devastation (Fortress)"),
   ("MP_WE_Fortress_Halfaya", "Hamada (Fortress)"),
   ("MP_WE_Grind_ArcticFjord", "Narvik (Grind)"),
   ("MP_WE_Grind_Devastation", "Devastation (Grind)"),
   ("MP_WE_Grind_Escaut", "Twisted Steel (Grind)"),
   ("MP_WE_Grind_Rotterdam", "Rotterdam (Grind)")]

/-- The map-key → image-URL table (main.rs 255-320). -/
def images : List (String × String) :=
  [("MP_Amiens", "https://cdn.gametools.network/maps/bf1/MP_Amiens_LandscapeLarge-e195589d.jpg"),
   ("MP_Chateau", "https://cdn.gametools.network/maps/bf1/MP_Chateau_LandscapeLarge-244d5987.jpg"),
   ("MP_Desert", "https://cdn.gametools.network/maps/bf1/MP_Desert_LandscapeLarge-d8f749da.jpg"),
   ("MP_FaoFortress", "https://cdn.gametools.network/maps/bf1/MP_FaoFortress_LandscapeLarge-cad1748e.jpg"),
   ("MP_Forest", "https://cdn.gametools.network/maps/bf1/MP_Forest_LandscapeLarge-dfbbe910.jpg"),
   ("MP_ItalianCoast", "https://cdn.gametools.network/maps/bf1/MP_ItalianCoast_LandscapeLarge-1503eec7.jpg"),
   ("MP_MountainFort", "https://cdn.gametools.network/maps/bf1/MP_MountainFort_LandscapeLarge-8a517533.jpg"),
   ("MP_Scar", "https://cdn.gametools.network/maps/bf1/MP_Scar_LandscapeLarge-ee25fbd6.jpg"),
   ("MP_Suez", "https://cdn.gametools.network/maps/bf1/MP_Suez_LandscapeLarge-f630fc76.jpg"),
   ("MP_Giant", "https://cdn.gametools.network/maps/bf1/MP_Giant_LandscapeLarge-dd0b93ef.jpg"),
   ("MP_Fields", "https://cdn.gametools.network/maps/bf1/MP_Fields_LandscapeLarge-5f53ddc4.jpg"),
   ("MP_Graveyard", "https://cdn.gametools.network/maps/bf1/MP_Graveyard_LandscapeLarge-bd1012e6.jpg"),
   ("MP_Underworld", "https://cdn.gametools.network/maps/bf1/MP_Underworld_LandscapeLarge-b6c5c7e7.jpg"),
   ("MP_Verdun", "https://cdn.gametools.network/maps/bf1/MP_Verdun_LandscapeLarge-1a364063.jpg"),
   ("MP_ShovelTown", "https://cdn.gametools.network/maps/bf1/MP_Shoveltown_LandscapeLarge-d0aa5920.jpg"),
   ("MP_Trench", "https://cdn.gametools.network/maps/bf1/MP_Trench_LandscapeLarge-dbd1248f.jpg"),
   ("MP_Bridge", "https://cdn.gametools.network/maps/bf1/MP_Bridge_LandscapeLarge-5b7f1b62.jpg"),
   ("MP_Islands", "https://cdn.gametools.network/maps/bf1/MP_Islands_LandscapeLarge-c9d8272b.jpg"),
   ("MP_Ravines", "https://cdn.gametools.network/maps/bf1/MP_Ravines_LandscapeLarge-1fe0d3f6.jpg"),
   ("MP_Tsaritsyn", "https://cdn.gametools.network/maps/bf1/MP_Tsaritsyn_LandscapeLarge-2dbd3bf5.jpg"),
   ("MP_Valley", "https://cdn.gametools.network/maps/bf1/MP_Valley_LandscapeLarge-8dc1c7ca.jpg"),
   ("MP_Volga", "https://cdn.gametools.network/maps/bf1/MP_Volga_LandscapeLarge-6ac49c25.jpg"),
   ("MP_Beachhead", "https://cdn.gametools.network/maps/bf1/MP_Beachhead_LandscapeLarge-5a13c655.jpg"),
   ("MP_Harbor", "https://cdn.gametools.network/maps/bf1/MP_Harbor_LandscapeLarge-d382c7ea.jpg"),
   ("MP_Naval", "https://cdn.gametools.network/maps/bf1/MP_Naval_LandscapeLarge-dc2e8daf.jpg"),
   ("MP_Ridge", "https://cdn.gametools.network/maps/bf1/MP_Ridge_LandscapeLarge-8c057a19.jpg"),
   ("MP_Alps", "https://cdn.gametools.network/maps/bf1/MP_Alps_LandscapeLarge-7ab30e3e.jpg"),
   ("MP_Blitz", "https://cdn.gametools.network/maps/bf1/MP_Blitz_LandscapeLarge-5e26212f.jpg"),
   ("MP_Hell", "https://cdn.gametools.network/maps/bf1/MP_Hell_LandscapeLarge-7176911c.jpg"),
   ("MP_London", "https://cdn.gametools.network/maps/bf1/MP_London_LandscapeLarge-0b51fe46.jpg"),
   ("MP_Offensive", "https://cdn.gametools.network/maps/bf1/MP_Offensive_LandscapeLarge-6dabdea3.jpg"),
   ("MP_River", "https://cdn.gametools.network/maps/bf1/MP_River_LandscapeLarge-21443ae9.jpg"),
   ("MP_ArcticFjell", "https://cdn.gametools.network/maps/bfv/1080p_MP_ArcticFjell-df3c1290.jpg"),
   ("MP_ArcticFjord", "https://cdn.gametools.network/maps/bfv/1080p_MP_ArcticFjord-7ba29138.jpg"),
   ("MP_Arras", "https://cdn.gametools.network/maps/bfv/1080p_MP_Arras-4b610505.jpg"),
   ("MP_Devastation", "https://cdn.gametools.network/maps/bfv/1080p_MP_Devastation-623dea60.jpg"),
   ("MP_Escaut", "https://cdn.gametools.network/maps/bfv/1080p_MP_Escaut-9764d1fb.jpg"),
   ("MP_Foxhunt", "https://cdn.gametools.network/maps/bfv/1080p_MP_AfricanFox-8ad380a5.jpg"),
   ("MP_Halfaya", "https://cdn.gametools.network/maps/bfv/1080p_MP_AfricanHalfaya-31165f9b.jpg"),
   ("MP_Rotterdam", "https://cdn.gametools.network/maps/bfv/1080p_MP_Rotterdam-55632240.jpg"),
   ("MP_Hannut", "https://cdn.gametools.network/maps/bfv/1080p_MP_Hannut-ebbe7197.jpg"),
   ("MP_Crete", "https://cdn.gametools.network/maps/bfv/1080p_MP_Crete-304a202d.jpg"),
   ("MP_Kalamas", "https://cdn.gametools.network/maps/bfv/1080p_MP_Kalamas-c64c8451.jpg"),
   ("MP_Provence", "https://cdn.gametools.network/maps/bfv/1080p_MP_ProvenceXL-a950ad3e.jpg"),
   ("MP_SandAndSea", "https://cdn.gametools.network/maps/bfv/1080p_MP_SandAndSea-f071e6f7.jpg"),
   ("MP_Bunker", "https://cdn.gametools.network/maps/bfv/1080p_MP_Bunker-7b518876.jpg"),
   ("MP_IwoJima", "https://cdn.gametools.network/maps/bfv/1080p_MP_IwoJima-760850fc.jpg"),
   ("MP_TropicIslands", "https://cdn.gametools.network/maps/bfv/1080p_MP_TropicIslands-9e0a41c3.jpg"),
   ("MP_WakeIsland", "https://cdn.gametools.network/maps/bfv/1080p_MP_WakeIsland-3238b455.jpg"),
   ("MP_Jungle", "https://cdn.gametools.network/maps/bfv/1080p_MP_Jungle-714218ce.jpg"),
   ("MP_Libya", "https://cdn.gametools.network/maps/bfv/1080p_MP_Libya-bd54b090.jpg"),
   ("MP_Norway", "https://cdn.gametools.network/maps/bfv/1080p_MP_Norway-7d6d6300.jpg"),
   ("DK_Norway", "https://cdn.gametools.network/maps/bfv/1080p_MP_Norway-7d6d6300.jpg"),
   ("MP_Escaut_US", "https://cdn.gametools.network/maps/bfv/1080p_MP_Escaut-9764d1fb.jpg"),
   ("MP_Hannut_US", "https://cdn.gametools.network/maps/bfv/1080p_MP_Hannut-ebbe7197.jpg"),
   ("MP_GOps_Chapter2_Arras", "https://cdn.gametools.network/maps/bfv/1080p_MP_Arras-4b610505.jpg"),
   ("MP_WE_Fortress_Devastation", "https://cdn.gametools.network/maps/bfv/1080p_MP_Devastation-623dea60.jpg"),
   ("MP_WE_Fortress_Halfaya", "https://cdn.gametools.network/maps/bfv/1080p_MP_AfricanHalfaya-31165f9b.jpg"),
   ("MP_WE_Grind_ArcticFjord", "https://cdn.gametools.network/maps/bfv/1080p_MP_ArcticFjord-7ba29138.jpg"),
   ("MP_WE_Grind_Devastation", "https://cdn.gametools.network/maps/bfv/1080p_MP_Devastation-623dea60.jpg"),
   ("MP_WE_Grind_Escaut", "https://cdn.gametools.network/maps/bfv/1080p_MP_Escaut-9764d1fb.jpg"),
   ("MP_WE_Grind_Rotterdam", "https://cdn.gametools.network/maps/bfv/1080p_MP_Rotterdam-55632240.jpg")]

/-- The game-mode → abbreviation table (main.rs 322-333). -/
def small_modes : List (String × String) :=
  [("Conquest0", "CQ"),
   ("Rush0", "RS"),
   ("BreakThrough0", "SO"),
   ("BreakthroughLarge0", "OP"),
   ("Possession0", "WP"),
   ("TugOfWar0", "FL"),
   ("AirAssault0", "AA"),
   ("Domination0", "DM"),
   ("TeamDeathMatch0", "TM"),
   ("ZoneControl0", "RS")]

/-- The per-server match test (main.rs 336-342): the configured name, when
present, is compared against the entry name; otherwise the configured id,
when present, against the entry id; otherwise no entry matches. -/
def right_server (statics : Static) (server : MarneServerInfo) : Bool :=
  match statics.server_name with
  | some server_name => server.name == server_name
  | none =>
    match statics.server_id with
    | some server_id => server.id == server_id
    | none => false

/-- The entry the loop at main.rs 335-375 acts on: the first entry in list
order passing `right_server`. -/
def selectServer (statics : Static) (l : MarneServerList) :
    Option MarneServerInfo :=
  l.servers.find? (right_server statics)

/-- The fallback activity text published when the poll fails
(main.rs 378). -/
def fallbackText : String := "¯\\_(ツ)_/¯ server not found"

/-- The activity text built for a matched server (main.rs 351-356). -/
def server_info_text (server : MarneServerInfo) : String :=
  toString server.current_players ++ "/" ++ toString server.max_players
    ++ " - " ++ ((maps.lookup (extract_map_key server.map_name)).getD
      (extract_map_key server.map_name))

/-- Result kinds of one `status` call: success, the two `get` failures, the
fall-through "Couldn\x27t find server in serverlist!" error, and a failed
`gen_img` call propagated by `?`. -/
inductive StatusResult where
  | ok
  | errNetwork
  | errParse
  | errNotFound
  | errRender
deriving DecidableEq, Repr

/-- Failure kind reported by `get` when it returns (no panic). -/
inductive GetErr where
  | network
  | parse
deriving DecidableEq, Repr

/-- The result `status` receives from `get`, when `get` returns. -/
inductive GetRes where
  | err (e : GetErr)
  | got (l : MarneServerList)
deriving DecidableEq, Repr

/-- Outcome of the `gen_img` call as seen by `status`: the returned path,
or a failure propagated by `?`. -/
inductive RenderRes where
  | fail
  | done (path : String)
deriving DecidableEq, Repr

/-- Externally observable actions of one poll cycle, in order. -/
inductive Event where
  | setActivity (text : String)
  | genImgCall (small_mode : String) (map_image : String)
  | setAvatar (path : String)
  | storeLiveness (minute : Int)
deriving DecidableEq, Repr

/-- The `for server in status.servers` loop of main.rs 335-375: skips
non-matching entries, and on the first match publishes the status text,
calls `gen_img` (aborting via `?` on failure) and publishes the avatar;
falling off the list ends in the "not found" bail at main.rs 384. -/
def processServers (statics : Static) (renderRes : RenderRes) :
    List MarneServerInfo → List Event × StatusResult
  | [] => ([], .errNotFound)
  | server :: rest =>
    if right_server statics server then
      let internal_map := extract_map_key server.map_name
      let server_info := server_info_text server
      let small_mode := (small_modes.lookup server.game_mode).getD ""
      let map_image := (images.lookup internal_map).getD internal_map
      match renderRes with
      | .fail => ([.setActivity server_info, .genImgCall small_mode map_image],
          .errRender)
      | .done image_loc =>
          ([.setActivity server_info, .genImgCall small_mode map_image,
            .setAvatar image_loc], .ok)
    else
      processServers statics renderRes rest

/-- Model of one `status` call (main.rs 185-385), given the outcome of
`get` and of the single possible `gen_img` call. -/
def statusModel (statics : Static) (getRes : GetRes) (renderRes : RenderRes) :
    List Event × StatusResult :=
  match getRes with
  | .got status => processServers statics renderRes status.servers
  | .err e =>
      ([.setActivity fallbackText],
       match e with
       | .network => .errNetwork
       | .parse => .errParse)

/-- One iteration of the poll loop (main.rs 140-152): run `status`, log any
error, then store the current epoch-minute into the liveness atomic. -/
def cycleModel (statics : Static) (getRes : GetRes) (renderRes : RenderRes)
    (now_minutes : Int) : List Event :=
  (statusModel statics getRes renderRes).1 ++ [.storeLiveness now_minutes]

/-- The liveness values written during a list of events. -/
def storeEvents (evs : List Event) : List Int :=
  evs.filterMap fun e =>
    match e with
    | .storeLiveness m => some m
    | _ => none

/-- The activity texts published during a list of events. -/
def activityTexts (evs : List Event) : List String :=
  evs.filterMap fun e =>
    match e with
    | .setActivity t => some t
    | _ => none

/-- One loop iteration when `get` panics instead of returning
(main.rs 169 indexes `json_bytes[0]`): the unwind aborts the spawned task
before any activity update or liveness store happens. -/
def cycleModelOfGet (statics : Static) (g : GetOutcome) (renderRes : RenderRes)
    (now_minutes : Int) : List Event :=
  match g with
  | .panicked => []
  | .networkError => cycleModel statics (.err .network) renderRes now_minutes
  | .parseError => cycleModel statics (.err .parse) renderRes now_minutes
  | .okList l => cycleModel statics (.got l) renderRes now_minutes

/-- An unnormalised rational number: numerator over a positive denominator.
Every constructor used below keeps the denominator positive.  Kept
unnormalised so that all arithmetic is plain `Int` arithmetic, which the
kernel evaluates directly. -/
structure Q where
  num : Int
  den : Int
deriving DecidableEq, Repr

/-- Embed an integer. -/
def qOfInt (k : Int) : Q := ⟨k, 1⟩

/-- Embed a natural number. -/
def qOfNat (n : Nat) : Q := ⟨(n : Int), 1⟩

/-- Negation. -/
def qNeg (a : Q) : Q := ⟨-a.num, a.den⟩

/-- Product. -/
def qMul (a b : Q) : Q := ⟨a.num * b.num, a.den * b.den⟩

/-- Difference. -/
def qSub (a b : Q) : Q := ⟨a.num * b.den - b.num * a.den, a.den * b.den⟩

/-- Quotient, keeping the denominator positive (the divisors appearing in
the renderer are never zero). -/
def qDiv (a b : Q) : Q :=
  if 0 ≤ b.num then ⟨a.num * b.den, a.den * b.num⟩
  else ⟨-(a.num * b.den), a.den * (-b.num)⟩

/-- Strict order, by cross-multiplication (valid for positive
denominators). -/
def qLt (a b : Q) : Bool := a.num * b.den < b.num * a.den

/-- Non-strict order, by cross-multiplication. -/
def qLe (a b : Q) : Bool := a.num * b.den ≤ b.num * a.den

/-- Value equality of two unnormalised rationals. -/
def qEquiv (a b : Q) : Prop := a.num * b.den = b.num * a.den

instance (a b : Q) : Decidable (qEquiv a b) :=
  inferInstanceAs (Decidable (a.num * b.den = b.num * a.den))

/-- Floor (`Int.fdiv` floors for a positive denominator). -/
def qFloor (a : Q) : Int := Int.fdiv a.num a.den

/-- Rust `as i32`: truncation toward zero (`Int` division truncates). -/
def qTrunc (a : Q) : Int := a.num / a.den

/-- Base-2 logarithm of a natural number, rounded down; fuelled structural
recursion (64 steps cover every quantity in the model). -/
def natLog2Aux : Nat → Nat → Nat
  | 0, _ => 0
  | fuel + 1, n => if 2 ≤ n then natLog2Aux fuel (n / 2) + 1 else 0

/-- Value of `⌊log₂ n⌋` (0 at 0 and 1). -/
def natLog2 (n : Nat) : Nat := natLog2Aux 64 n

/-- Power `2 ^ e` for an integer exponent. -/
def pow2z (e : Int) : Q :=
  if 0 ≤ e then ⟨(2 : Int) ^ e.toNat, 1⟩ else ⟨1, (2 : Int) ^ (-e).toNat⟩

/-- Value of `⌊log₂ q⌋` for a positive rational, from the bit lengths of numerator
and denominator with a correction step. -/
def floorLog2 (q : Q) : Int :=
  let e0 : Int := (natLog2 q.num.toNat : Int) - (natLog2 q.den.toNat : Int)
  if qLe (pow2z (e0 + 1)) q then e0 + 1
  else if qLe (pow2z e0) q then e0
  else e0 - 1

/-- Round a rational to the nearest integer, ties to even. -/
def rne (q : Q) : Int :=
  let f := qFloor q
  let r := qSub q (qOfInt f)
  if qLt r ⟨1, 2⟩ then f
  else if qLt ⟨1, 2⟩ r then f + 1
  else if f % 2 = 0 then f else f + 1

/-- Round a positive rational to the nearest IEEE-754 single-precision
value: scale to a 24-bit significand, round to nearest (ties to even),
scale back.  The normal range suffices for every quantity the renderer
computes. -/
def f32RoundPos (q : Q) : Q :=
  let e := floorLog2 q
  let scale := pow2z (e - 23)
  qMul (qOfInt (rne (qDiv q scale))) scale

/-- Round a rational to the nearest `f32` value. -/
def f32Round (q : Q) : Q :=
  if q.num = 0 then ⟨0, 1⟩
  else if q.num < 0 then qNeg (f32RoundPos (qNeg q))
  else f32RoundPos q

/-- IEEE-754 correctly rounded `f32` division of two `f32` values. -/
def f32Div (a b : Q) : Q := f32Round (qDiv a b)

/-- The `f32` value of the literal `3.5` (exactly representable). -/
def lit3p5 : Q := f32Round ⟨7, 2⟩

/-- The `f32` value of the literal `4.8` (not exactly representable; the
nearest `f32` is 10066330 / 2^21, slightly above 4.8). -/
def lit4p8 : Q := f32Round ⟨24, 5⟩

/-- The `f32` value of the literal `1.7` (not exactly representable; the
nearest `f32` is 14260634 / 2^23, slightly above 1.7). -/
def lit1p7 : Q := f32Round ⟨17, 10⟩

/-- One RGBA pixel with 8-bit channels. -/
structure Rgba where
  r : Nat
  g : Nat
  b : Nat
  a : Nat

/-- A decoded raster image: dimensions plus a pixel map. -/
structure Img where
  width : Nat
  height : Nat
  px : Nat → Nat → Rgba

/-- Saturating 8-bit channel adjustment used by `brighten`. -/
def brightenChannel (c : Nat) (v : Int) : Nat :=
  (min 255 (max 0 ((c : Int) + v))).toNat

/-- Model of `image::DynamicImage::brighten(v)`: adjust every colour channel by `v`
with saturation, leaving alpha and the dimensions unchanged. -/
def brighten (i : Img) (v : Int) : Img :=
  { width := i.width
    height := i.height
    px := fun x y =>
      let p := i.px x y
      { r := brightenChannel p.r v
        g := brightenChannel p.g v
        b := brightenChannel p.b v
        a := p.a } }

/-- The arguments `gen_img` passes to `draw_text_mut` (main.rs 410-418). -/
structure DrawCall where
  colr : Nat
  colg : Nat
  colb : Nat
  cola : Nat
  x : Int
  y : Int
  scaleX : Q
  scaleY : Q
  text : String
deriving DecidableEq, Repr

/-- Observable effects of `gen_img` after a successful download and
decode. -/
structure GenImgOut where
  intermediatePath : String
  intermediateImg : Img
  draw : DrawCall
  finalPath : String
  ret : String

/-- Model of `gen_img` (main.rs 387-422) from the decoded image onward:
darken by 25 and save the intermediate, compute the glyph scale
`((width / 3) as f32, height as f32 / 1.7)` and the text origin
`((width as f32 / 3.5) as i32, (height as f32 / 4.8) as i32)`, draw the
abbreviation in opaque white, save and return `"./map_mode.jpg"`. -/
def gen_img (small_mode : String) (decoded : Img) : GenImgOut :=
  let img2 := brighten decoded (-25)
  let scale : Q × Q :=
    (qOfNat (img2.width / 3), f32Div (f32Round (qOfNat img2.height)) lit1p7)
  let img_size : Q × Q :=
    (f32Round (qOfNat img2.width), f32Round (qOfNat img2.height))
  { intermediatePath := "./info_image.jpg"
    intermediateImg := img2
    draw :=
      { colr := 255, colg := 255, colb := 255, cola := 255
        x := qTrunc (f32Div img_size.1 lit3p5)
        y := qTrunc (f32Div img_size.2 lit4p8)
        scaleX := scale.1
        scaleY := scale.2
        text := small_mode }
    finalPath := "./map_mode.jpg"
    ret := "./map_mode.jpg" }

/-- A parse function that rejects every body (for closed instances). -/
def parseNone : String → Option MarneServerList := fun _ => none

/-- A parse function accepting exactly the body "ab" (for closed
instances about marker stripping). -/
def parseOnlyAB : String → Option MarneServerList :=
  fun s => if s = "ab" then some ⟨[]⟩ else none

/-- A configuration monitoring the server named "Alpha". -/
def cfgAlpha : Static := ⟨"", some "Alpha", none, some "bf1"⟩

/-- A configuration with neither name nor id set. -/
def cfgNone : Static := ⟨"", none, none, some "bf1"⟩

/-- The server of the end-to-end scenario in the spec. -/
def serverAlpha : MarneServerInfo :=
  ⟨1, "Alpha", "MP_Amiens", "Conquest0", 64, 60, 0, 0, 0, 40, "EU", "DE"⟩

/-- A one-server list holding `serverAlpha`. -/
def listAlpha : MarneServerList := ⟨[serverAlpha]⟩

/-- A second server with the same name as `serverAlpha` but another id. -/
def serverAlphaTwo : MarneServerInfo :=
  ⟨2, "Alpha", "MP_Suez", "Rush0", 32, 60, 0, 0, 0, 10, "EU", "DE"⟩

/-- Two entries with the same name and different ids. -/
def listDup : MarneServerList := ⟨[serverAlpha, serverAlphaTwo]⟩

theorem storeEvents_append (a b : List Event) :
    storeEvents (a ++ b) = storeEvents a ++ storeEvents b := by
  simp [storeEvents, List.filterMap_append]

theorem storeEvents_processServers (st : Static) (r : RenderRes) :
    ∀ l : List MarneServerInfo, storeEvents (processServers st r l).1 = [] := by
  intro l
  induction l with
  | nil => rfl
  | cons server rest ih =>
    by_cases h : right_server st server
    · cases r <;> simp [processServers, h, storeEvents]
    · simpa [processServers, h] using ih

theorem storeEvents_statusModel (st : Static) (g : GetRes) (r : RenderRes) :
    storeEvents (statusModel st g r).1 = [] := by
  cases g with
  | got l => exact storeEvents_processServers st r l.servers
  | err e => cases e <;> rfl

/-- C2: for every probe request on any path, the body is the decimal
elapsed count `now - last`, the status is 200 exactly when the elapsed
count is at most 5, and 503 exactly when it exceeds 5. -/
theorem c2_probe_threshold (last_update now_minutes : Int) :
    probeResponse last_update now_minutes
      = (toString (now_minutes - last_update),
          probeStatusCode last_update now_minutes)
    ∧ (probeStatusCode last_update now_minutes = 200
        ↔ now_minutes - last_update ≤ 5)
    ∧ (probeStatusCode last_update now_minutes = 503
        ↔ 5 < now_minutes - last_update) := by
  refine ⟨rfl, ?_, ?_⟩ <;> unfold probeStatusCode <;> split <;>
    simp <;> omega

theorem c2_probe_threshold_witness :
    probeStatusCode 0 5 = 200 ∧ probeStatusCode 0 6 = 503 :=
  ⟨(c2_probe_threshold 0 5).2.1.mpr (by decide),
   (c2_probe_threshold 0 6).2.2.mpr (by decide)⟩

/-- C10: the shared liveness value starts at 0, so before the first store
a probe reports the full current epoch-minute and is unhealthy (503) for
any clock value above the threshold; it can only report 200 when the
current epoch-minute itself is at most 5. -/
theorem c10_initial_liveness (now_minutes : Int) :
    initialLiveness = 0
    ∧ probeBody initialLiveness now_minutes = toString now_minutes
    ∧ (5 < now_minutes → probeStatusCode initialLiveness now_minutes = 503)
    ∧ (probeStatusCode initialLiveness now_minutes = 200 ↔ now_minutes ≤ 5) := by
  refine ⟨rfl, ?_, ?_, ?_⟩
  · show toString (now_minutes - 0) = toString now_minutes
    rw [sub_zero]
  · intro h
    exact (c2_probe_threshold 0 now_minutes).2.2.mpr (by omega)
  · have := (c2_probe_threshold 0 now_minutes).2.1
    simpa using this

theorem c10_initial_liveness_witness :
    probeStatusCode initialLiveness 29605000 = 503 :=
  (c10_initial_liveness 29605000).2.2.1 (by decide)

/-- C6: `get` classifies a transport failure as a network error and an
undecodable (possibly marker-stripped) body as a parse error, and strips
the first character exactly when the first byte is 239 — but, contrary to
the claim, an empty body is not a parse error: the unchecked index
`json_bytes[0]` panics on it. -/
theorem c6_get_error_taxonomy :
    getModel none parseNone = .networkError
    ∧ getModel (some "") parseNone = .panicked
    ∧ getModel (some "x") parseNone = .parseError
    ∧ firstUtf8Byte '\uFEFF' = 239
    ∧ getModel (some (String.mk ['\uFEFF', 'a', 'b'])) parseOnlyAB
        = .okList ⟨[]⟩
    ∧ getModel (some "ab") parseOnlyAB = .okList ⟨[]⟩
    ∧ getModel (some "xab") parseOnlyAB = .parseError := by
  decide

/-- C1: whenever `status` returns (success, network or parse failure, no
match, or render failure), the loop writes the liveness value exactly once,
as the last action of the cycle, with the epoch-minute read at that point,
and the written values are monotone in the clock reading; but when the poll
response body is empty, `get` panics and the cycle ends with no liveness
write at all. -/
theorem c1_liveness_once_per_cycle :
    (∀ (st : Static) (g : GetRes) (r : RenderRes) (now : Int),
      storeEvents (cycleModel st g r now) = [now]
      ∧ (cycleModel st g r now).getLast? = some (.storeLiveness now))
    ∧ (∀ (st : Static) (r : RenderRes) (now : Int)
        (p : String → Option MarneServerList),
      getModel (some "") p = .panicked
      ∧ cycleModelOfGet st (getModel (some "") p) r now = [])
    ∧ (∀ (st : Static) (g : GetRes) (r : RenderRes) (n1 n2 : Int),
      n1 ≤ n2 →
      ∀ m1 ∈ storeEvents (cycleModel st g r n1),
      ∀ m2 ∈ storeEvents (cycleModel st g r n2), m1 ≤ m2) := by
  have hstores : ∀ (st : Static) (g : GetRes) (r : RenderRes) (now : Int),
      storeEvents (cycleModel st g r now) = [now] := by
    intro st g r now
    unfold cycleModel
    rw [storeEvents_append, storeEvents_statusModel]
    rfl
  refine ⟨fun st g r now => ⟨hstores st g r now, ?_⟩, fun st r now p => ⟨rfl, rfl⟩, ?_⟩
  · unfold cycleModel
    simp
  · intro st g r n1 n2 h m1 hm1 m2 hm2
    rw [hstores st g r n1] at hm1
    rw [hstores st g r n2] at hm2
    simp at hm1 hm2
    omega

theorem c1_liveness_once_per_cycle_witness :
    storeEvents (cycleModel cfgAlpha (.err .network) .fail 7) = [7]
    ∧ cycleModelOfGet cfgAlpha (getModel (some "") parseNone) .fail 7 = []
    ∧ (3 : Int) ≤ 7 ∧ ∀ m1 ∈ storeEvents (cycleModel cfgAlpha (.err .network) .fail 3),
        ∀ m2 ∈ storeEvents (cycleModel cfgAlpha (.err .network) .fail 7), m1 ≤ m2 :=
  ⟨(c1_liveness_once_per_cycle.1 cfgAlpha (.err .network) .fail 7).1,
   (c1_liveness_once_per_cycle.2.1 cfgAlpha .fail 7 parseNone).2,
   by decide,
   c1_liveness_once_per_cycle.2.2 cfgAlpha (.err .network) .fail 3 7 (by decide)⟩

theorem statusModel_got (st : Static) (l : MarneServerList) (r : RenderRes) :
    statusModel st (.got l) r = processServers st r l.servers := rfl

theorem processServers_not_found (st : Static) (r : RenderRes) :
    ∀ l : List MarneServerInfo, l.find? (right_server st) = none →
      processServers st r l = ([], .errNotFound) := by
  intro l
  induction l with
  | nil => intro _; rfl
  | cons s rest ih =>
    intro h
    by_cases hs : right_server st s
    · rw [List.find?_cons_of_pos _ hs] at h
      exact absurd h (by simp)
    · rw [List.find?_cons_of_neg _ hs] at h
      simpa [processServers, hs] using ih h

theorem processServers_of_find (st : Static) (r : RenderRes) :
    ∀ (l : List MarneServerInfo) (server : MarneServerInfo),
      l.find? (right_server st) = some server →
      processServers st r l =
        (Event.setActivity (server_info_text server) ::
          Event.genImgCall ((small_modes.lookup server.game_mode).getD "")
            ((images.lookup (extract_map_key server.map_name)).getD
              (extract_map_key server.map_name)) ::
          (match r with
           | .fail => []
           | .done p => [Event.setAvatar p]),
         match r with
         | .fail => StatusResult.errRender
         | .done _ => StatusResult.ok) := by
  intro l
  induction l with
  | nil => intro server h; simp [List.find?] at h
  | cons s rest ih =>
    intro server h
    by_cases hs : right_server st s
    · rw [List.find?_cons_of_pos _ hs] at h
      have hss : s = server := by simpa using h
      subst hss
      cases r <;> simp [processServers, hs]
    · rw [List.find?_cons_of_neg _ hs] at h
      simpa [processServers, hs] using ih server h

/-- C3: with a configured name, selection picks the first entry with
exactly that name (the configured id playing no part); with only an id,
the first entry with that id; with neither, no entry ever matches; and
whenever nothing matches, `status` ends in the not-found failure. -/
theorem c3_matcher_selection (token : String) (g : Option String)
    (l : MarneServerList) :
    (∀ (n : String) (i : Option Int),
      selectServer ⟨token, some n, i, g⟩ l
        = l.servers.find? (fun s => s.name == n))
    ∧ (∀ i : Int,
      selectServer ⟨token, none, some i, g⟩ l
        = l.servers.find? (fun s => s.id == i))
    ∧ selectServer ⟨token, none, none, g⟩ l = none
    ∧ (∀ (st : Static) (r : RenderRes), selectServer st l = none →
        statusModel st (.got l) r = ([], .errNotFound)) := by
  refine ⟨fun n i => rfl, fun i => rfl, ?_, ?_⟩
  · unfold selectServer
    rw [List.find?_eq_none]
    intro s _
    simp [right_server]
  · intro st r h
    exact processServers_not_found st r l.servers h

theorem c3_matcher_selection_witness :
    selectServer ⟨"", some "Alpha", none, some "bf1"⟩ listDup = some serverAlpha
    ∧ statusModel cfgNone (.got listDup) .fail = ([], .errNotFound) := by
  have h := c3_matcher_selection "" (some "bf1") listDup
  refine ⟨?_, h.2.2.2 cfgNone .fail (by decide)⟩
  rw [h.1 "Alpha" none]
  decide

theorem takeWhile_of_all {α : Type} (p : α → Bool) :
    ∀ xs : List α, (∀ c ∈ xs, p c = true) → xs.takeWhile p = xs := by
  intro xs
  induction xs with
  | nil => intro _; rfl
  | cons a t ih =>
    intro h
    rw [List.takeWhile_cons, h a (by simp), if_pos rfl,
      ih (fun c hc => h c (by simp [hc]))]

theorem takeWhile_append_stop {α : Type} (p : α → Bool) :
    ∀ (xs : List α) (y : α) (ys : List α), (∀ c ∈ xs, p c = true) →
      p y = false → (xs ++ y :: ys).takeWhile p = xs := by
  intro xs y ys
  induction xs with
  | nil =>
    intro _ hy
    rw [List.nil_append, List.takeWhile_cons, hy, if_neg (by simp)]
  | cons a t ih =>
    intro h hy
    rw [List.cons_append, List.takeWhile_cons, h a (by simp), if_pos rfl,
      ih (fun c hc => h c (by simp [hc])) hy]

theorem lastRun_no_slash (l : List Char) (h : '/' ∉ l) : lastRun l = l := by
  unfold lastRun
  rw [takeWhile_of_all _ l.reverse ?_, List.reverse_reverse]
  intro c hc
  have hcne : c ≠ '/' := by
    rintro rfl
    exact h (List.mem_reverse.mp hc)
  simpa using hcne

theorem lastRun_last_segment (a b : List Char) (_hb : b ≠ [])
    (hnb : '/' ∉ b) : lastRun (a ++ '/' :: b) = b := by
  unfold lastRun
  rw [List.reverse_append, List.reverse_cons, List.append_assoc,
    List.singleton_append]
  rw [takeWhile_append_stop _ b.reverse '/' a.reverse ?_ (by decide),
    List.reverse_reverse]
  intro c hc
  have hcne : c ≠ '/' := by
    rintro rfl
    exact hnb (List.mem_reverse.mp hc)
  simpa using hcne

theorem lastRun_ends_slash (a : List Char) : lastRun (a ++ ['/']) = [] := by
  unfold lastRun
  rw [List.reverse_append]
  rfl

theorem extract_eq_of_lastRun (s : String) (r : List Char)
    (h : lastRun s.data = r) (hr : r ≠ []) : extract_map_key s = ⟨r⟩ := by
  unfold extract_map_key lastSegment
  rw [h]
  cases r with
  | nil => exact absurd rfl hr
  | cons x xs => rfl

theorem extract_eq_self_of_lastRun_nil (s : String)
    (h : lastRun s.data = []) : extract_map_key s = s := by
  unfold extract_map_key lastSegment
  rw [h]

/-- C4 counterexample: for the input "abc/" (a `/` is present), the claim
makes the lookup key the text after the last `/`, i.e. the empty string,
but the code falls back to the whole raw string when the regex `[^\/]+$`
has no match. -/
theorem c4_trailing_slash_counterexample :
    specMapKey "abc/" = "" ∧ extract_map_key "abc/" = "abc/"
      ∧ ("abc/" : String) ≠ "" := by
  decide

/-- C4 amended: the lookup key is the maximal nonempty trailing run of
non-`/` characters when one exists (everything after the last `/` when the
string does not end in `/`, the whole string when it has no `/`); a string
ending in `/` is used unchanged; the two example inputs behave as
claimed. -/
theorem c4_map_key_extraction_amended :
    (∀ a b : List Char, b ≠ [] → '/' ∉ b →
      extract_map_key ⟨a ++ '/' :: b⟩ = ⟨b⟩)
    ∧ (∀ l : List Char, '/' ∉ l → extract_map_key ⟨l⟩ = ⟨l⟩)
    ∧ (∀ a : List Char, extract_map_key ⟨a ++ ['/']⟩ = ⟨a ++ ['/']⟩)
    ∧ extract_map_key "Xpack2/Levels/MP/MP_Bridge/MP_Bridge" = "MP_Bridge"
    ∧ extract_map_key "MP_Bridge" = "MP_Bridge" := by
  refine ⟨?_, ?_, ?_, by decide, by decide⟩
  · intro a b hb hnb
    exact extract_eq_of_lastRun ⟨a ++ '/' :: b⟩ b
      (lastRun_last_segment a b hb hnb) hb
  · intro l h
    cases l with
    | nil => rfl
    | cons x xs =>
      exact extract_eq_of_lastRun ⟨x :: xs⟩ (x :: xs)
        (lastRun_no_slash (x :: xs) h) (by simp)
  · intro a
    exact extract_eq_self_of_lastRun_nil ⟨a ++ ['/']⟩ (lastRun_ends_slash a)

theorem c4_map_key_extraction_amended_witness :
    extract_map_key ⟨['a'] ++ '/' :: ['b']⟩ = ⟨['b']⟩
    ∧ extract_map_key ⟨['M', 'P']⟩ = ⟨['M', 'P']⟩ :=
  ⟨c4_map_key_extraction_amended.1 ['a'] ['b'] (by decide) (by decide),
   c4_map_key_extraction_amended.2.1 ['M', 'P'] (by decide)⟩

/-- The activity texts published during a matched cycle, and its result,
for both renderer outcomes; the text and the renderer abbreviation come
from total table lookups falling back to the raw key / empty string, so a
missing table entry never fails.  Includes the end-to-end scenario of
the spec. -/
theorem c5_published_status (st : Static) (l : MarneServerList)
    (server : MarneServerInfo) (h : selectServer st l = some server) :
    statusModel st (.got l) .fail
      = ([.setActivity (server_info_text server),
          .genImgCall ((small_modes.lookup server.game_mode).getD "")
            ((images.lookup (extract_map_key server.map_name)).getD
              (extract_map_key server.map_name))], .errRender)
    ∧ (∀ p : String, statusModel st (.got l) (.done p)
      = ([.setActivity (server_info_text server),
          .genImgCall ((small_modes.lookup server.game_mode).getD "")
            ((images.lookup (extract_map_key server.map_name)).getD
              (extract_map_key server.map_name)),
          .setAvatar p], .ok))
    ∧ server_info_text server
      = toString server.current_players ++ "/" ++ toString server.max_players
        ++ " - " ++ ((maps.lookup (extract_map_key server.map_name)).getD
          (extract_map_key server.map_name))
    ∧ statusModel cfgAlpha (.got listAlpha) (.done "./map_mode.jpg")
      = ([.setActivity "40/64 - Amiens",
          .genImgCall "CQ"
            "https://cdn.gametools.network/maps/bf1/MP_Amiens_LandscapeLarge-e195589d.jpg",
          .setAvatar "./map_mode.jpg"], .ok) := by
  refine ⟨?_, ?_, rfl, by decide⟩
  · rw [statusModel_got]
    exact processServers_of_find st .fail l.servers server h
  · intro p
    rw [statusModel_got]
    exact processServers_of_find st (.done p) l.servers server h

theorem c5_published_status_witness :
    statusModel cfgAlpha (.got listAlpha) (.done "./map_mode.jpg")
      = ([.setActivity "40/64 - Amiens",
          .genImgCall "CQ"
            "https://cdn.gametools.network/maps/bf1/MP_Amiens_LandscapeLarge-e195589d.jpg",
          .setAvatar "./map_mode.jpg"], .ok) := by
  have h := c5_published_status cfgAlpha listAlpha serverAlpha (by decide)
  simpa using h.2.1 "./map_mode.jpg"

/-- C7 counterexample: with the matcher succeeding and the renderer
failing, the one published activity text of the cycle is the regular
status text, not the "server not found" fallback the claim promises. -/
theorem c7_render_failure_counterexample :
    selectServer cfgAlpha listAlpha = some serverAlpha
    ∧ (statusModel cfgAlpha (.got listAlpha) .fail).2 = .errRender
    ∧ activityTexts (statusModel cfgAlpha (.got listAlpha) .fail).1
        = ["40/64 - Amiens"]
    ∧ fallbackText ∉ activityTexts (statusModel cfgAlpha (.got listAlpha) .fail).1 := by
  decide

/-- C7 amended: when the matcher succeeds but the renderer fails before
the avatar publish, the Publisher has already been invoked exactly once in
that cycle — with the regular status text, not the fallback (the fallback
is published only when polling fails) — and that invocation precedes the
liveness store at the end of the cycle. -/
theorem c7_render_failure_amended (st : Static) (l : MarneServerList)
    (server : MarneServerInfo) (now : Int)
    (h : selectServer st l = some server) :
    cycleModel st (.got l) .fail now
      = [.setActivity (server_info_text server),
         .genImgCall ((small_modes.lookup server.game_mode).getD "")
           ((images.lookup (extract_map_key server.map_name)).getD
             (extract_map_key server.map_name)),
         .storeLiveness now]
    ∧ (statusModel st (.got l) .fail).2 = .errRender
    ∧ activityTexts (cycleModel st (.got l) .fail now)
        = [server_info_text server] := by
  have hp : statusModel st (.got l) .fail
      = ([.setActivity (server_info_text server),
          .genImgCall ((small_modes.lookup server.game_mode).getD "")
            ((images.lookup (extract_map_key server.map_name)).getD
              (extract_map_key server.map_name))], .errRender) := by
    rw [statusModel_got]
    exact processServers_of_find st .fail l.servers server h
  refine ⟨?_, ?_, ?_⟩
  · unfold cycleModel
    rw [hp]
    rfl
  · rw [hp]
  · unfold cycleModel
    rw [hp]
    rfl

theorem c7_render_failure_amended_witness :
    cycleModel cfgAlpha (.got listAlpha) .fail 7
      = [.setActivity "40/64 - Amiens",
         .genImgCall "CQ"
           "https://cdn.gametools.network/maps/bf1/MP_Amiens_LandscapeLarge-e195589d.jpg",
         .storeLiveness 7] := by
  have h := c7_render_failure_amended cfgAlpha listAlpha serverAlpha 7 (by decide)
  simpa using h.1

/-- C8: on a poll transport failure the cycle publishes exactly the
fallback text once, then stores the current epoch-minute; the value the
probe reads after the cycle is the same epoch-minute any other outcome
would have stored, so the behaviour of the probe is unaffected by the
failure. -/
theorem c8_transport_failure_cycle (st : Static) (r : RenderRes) (now : Int) :
    cycleModel st (.err .network) r now
      = [.setActivity fallbackText, .storeLiveness now]
    ∧ activityTexts (cycleModel st (.err .network) r now) = [fallbackText]
    ∧ storeEvents (cycleModel st (.err .network) r now) = [now]
    ∧ (statusModel st (.err .network) r).2 = .errNetwork
    ∧ (∀ (g : GetRes) (r2 : RenderRes),
        storeEvents (cycleModel st g r2 now)
          = storeEvents (cycleModel st (.err .network) r now)) := by
  refine ⟨rfl, rfl, rfl, rfl, ?_⟩
  intro g r2
  unfold cycleModel
  rw [storeEvents_append, storeEvents_statusModel,
    storeEvents_append, storeEvents_statusModel]

/-- A 72-by-72 all-black decoded image. -/
def img72 : Img := { width := 72, height := 72, px := fun _ _ => ⟨0, 0, 0, 255⟩ }

/-- A 72-by-72 image with different pixel content. -/
def img72gray : Img :=
  { width := 72, height := 72, px := fun _ _ => ⟨90, 90, 90, 200⟩ }

/-- C9 counterexample: on a 72-pixel-high image, the y origin drawn by the
code is 14, while the integer-truncated `height / 4.8` of the claim is 15: the
literal `4.8` is not representable in `f32` (the nearest value lies just
above 4.8), so the single-precision quotient falls below the exact one and
truncation loses a unit exactly when the exact quotient is an integer. -/
theorem c9_origin_truncation_counterexample :
    (gen_img "CQ" img72).draw.y = 14
    ∧ qTrunc (qDiv (qOfNat img72.height) ⟨24, 5⟩) = 15
    ∧ (14 : Int) ≠ 15 := by
  decide

/-- C9 amended: `gen_img` darkens the decoded image by 25 levels and
persists that intermediate, draws the abbreviation in opaque white at the
truncation of the single-precision quotients width / 3.5 and height / 4.8
(which can fall one below the exact truncation, as at height 72), with
glyph scale (width integer-divided by 3, single-precision height / 1.7),
writes the composite to the fixed path "./map_mode.jpg" and returns it;
the placement coordinates and scale depend only on the image
dimensions, hence are bit-identical for identical inputs. -/
theorem c9_render_amended (small_mode : String) (decoded : Img) :
    (gen_img small_mode decoded).intermediatePath = "./info_image.jpg"
    ∧ (gen_img small_mode decoded).intermediateImg = brighten decoded (-25)
    ∧ (gen_img small_mode decoded).draw.colr = 255
    ∧ (gen_img small_mode decoded).draw.colg = 255
    ∧ (gen_img small_mode decoded).draw.colb = 255
    ∧ (gen_img small_mode decoded).draw.cola = 255
    ∧ (gen_img small_mode decoded).draw.x
        = qTrunc (f32Div (f32Round (qOfNat decoded.width)) lit3p5)
    ∧ (gen_img small_mode decoded).draw.y
        = qTrunc (f32Div (f32Round (qOfNat decoded.height)) lit4p8)
    ∧ (gen_img small_mode decoded).draw.scaleX = qOfNat (decoded.width / 3)
    ∧ (gen_img small_mode decoded).draw.scaleY
        = f32Div (f32Round (qOfNat decoded.height)) lit1p7
    ∧ (gen_img small_mode decoded).draw.text = small_mode
    ∧ (gen_img small_mode decoded).finalPath = "./map_mode.jpg"
    ∧ (gen_img small_mode decoded).ret = "./map_mode.jpg"
    ∧ (∀ (m2 : String) (d2 : Img), d2.width = decoded.width →
        d2.height = decoded.height →
        (gen_img m2 d2).draw.x = (gen_img small_mode decoded).draw.x
        ∧ (gen_img m2 d2).draw.y = (gen_img small_mode decoded).draw.y
        ∧ (gen_img m2 d2).draw.scaleX = (gen_img small_mode decoded).draw.scaleX
        ∧ (gen_img m2 d2).draw.scaleY
            = (gen_img small_mode decoded).draw.scaleY) := by
  refine ⟨rfl, rfl, rfl, rfl, rfl, rfl, rfl, rfl, rfl, rfl, rfl, rfl, rfl, ?_⟩
  intro m2 d2 hw hh
  exact ⟨congrArg (fun w => qTrunc (f32Div (f32Round (qOfNat w)) lit3p5)) hw,
    congrArg (fun h2 => qTrunc (f32Div (f32Round (qOfNat h2)) lit4p8)) hh,
    congrArg (fun w => qOfNat (w / 3)) hw,
    congrArg (fun h2 => f32Div (f32Round (qOfNat h2)) lit1p7) hh⟩

theorem c9_render_amended_witness :
    (gen_img "RS" img72gray).draw.x = (gen_img "CQ" img72).draw.x
    ∧ (gen_img "RS" img72gray).draw.y = (gen_img "CQ" img72).draw.y :=
  ⟨((c9_render_amended "CQ" img72).2.2.2.2.2.2.2.2.2.2.2.2.2 "RS" img72gray
      rfl rfl).1,
   ((c9_render_amended "CQ" img72).2.2.2.2.2.2.2.2.2.2.2.2.2 "RS" img72gray
      rfl rfl).2.1⟩
